import Mathlib

/-!
Shallow embedding of the SkyCast pipeline (data_collection.py and train.py).

Conventions of the embedding:
* Epoch timestamps are `Int` (seconds). `datetime` values are kept as their
  epoch seconds: `datetime` subtraction and comparison in the source only ever
  uses differences, which are timezone independent.
* Python float arithmetic on these small quantities is modelled with `ℚ`.
* A Python function that may raise, or a dict access that may fail, is
  modelled with `Option`; a caught exception is the `none` branch.
* External HTTP collaborators (FlightAware, OpenWeatherMap) are oracle
  parameters; `none` from an oracle models a raised/failed call.
* The static airport registry `INDIAN_AIRPORTS` (file airports.py, not part
  of the sources) is an abstract mapping `String → Option Coord`.
-/

namespace SkyCast

/-- Geographic coordinate, an entry of the static airport registry. -/
structure Coord where
  lat : ℚ
  lon : ℚ
deriving Repr, DecidableEq

/-- One element of the "weather" array of an OpenWeatherMap response. -/
structure WeatherCondition where
  main : String
  description : String
deriving Repr, DecidableEq

/-- The "current" object of an OpenWeatherMap response; the "weather" array
may be empty, in which case indexing `[0]` in the source raises. -/
structure WeatherCurrent where
  weather : List WeatherCondition
  temp : ℚ
  wind_speed : ℚ
deriving Repr, DecidableEq

/-- A weather collaborator response as consumed by process_flight. -/
structure WeatherData where
  current : WeatherCurrent
deriving Repr, DecidableEq

/-- RawFlightDetail: the fields of the FlightInfoStatus result that
process_flight reads, each optional (read with dict.get). `none` for the
whole detail models both a failed call and a falsy (empty) result. -/
structure FlightDetail where
  origin : Option String
  filed_departuretime : Option Int
  actualdeparturetime : Option Int
deriving Repr, DecidableEq

/-- RawFlightBoardEntry: one arrivals-board entry. Fields read with
`flight[...]` raise KeyError when absent (the `none` case); fields read with
`flight.get(..., default)` fall back to the default. -/
structure BoardEntry where
  ident : Option String
  operator : Option String
  actualarrivaltime : Option Int
  estimatedarrivaltime : Option Int
  aircrafttype : Option String
deriving Repr, DecidableEq

/-- EnrichedFlightRecord: the dict returned by process_flight
(timestamps kept as epoch seconds). -/
structure EnrichedFlightRecord where
  flight_number : String
  airline : String
  origin : Option String
  destination : String
  scheduled_departure : Int
  actual_departure : Int
  scheduled_arrival : Int
  actual_arrival : Int
  delay_minutes : ℚ
  aircraft : String
  route_weather : String
  route_weather_desc : String
  route_temp : Option ℚ
  route_wind : Option ℚ
deriving Repr, DecidableEq

/-! The weather cache (self.weather_cache, a dict keyed by an f-string). -/

/-- The weather cache: an association list modelling the Python dict
(keys are only ever inserted when absent, so append suffices). -/
abbrev Cache := List (String × WeatherData)

/-- Dict lookup in the cache. -/
def cacheLookup (cache : Cache) (key : String) : Option WeatherData :=
  (cache.find? fun p => p.1 == key).map Prod.snd

/-- Day of an epoch timestamp: models `flight_time.date()` (days since the
epoch; the source truncates the timestamp to calendar-day granularity). -/
def dateOf (t : ℚ) : Int := ⌊t / 86400⌋

/-- Python `int()` truncation toward zero, as in `int(flight_time.timestamp())`. -/
def pyInt (q : ℚ) : Int := q.num / q.den

/-- The cache key f-string `"{origin}-{destination}-{flight_time.date()}"`. -/
def cacheKey (origin destination : String) (flight_time : ℚ) : String :=
  origin ++ "-" ++ destination ++ "-" ++ toString (dateOf flight_time)

/-- Registry access `INDIAN_AIRPORTS.get(code, {})` followed by
`.get('lat', 0)` / `.get('lon', 0)`: an absent code contributes (0, 0). -/
def airportCoord (registry : String → Option Coord) (code : String) : Coord :=
  (registry code).getD ⟨0, 0⟩

/-- Translation of FlightDataCollector._get_midpoint. -/
def _get_midpoint (registry : String → Option Coord)
    (origin_icao dest_icao : String) : Coord :=
  { lat := ((airportCoord registry origin_icao).lat + (airportCoord registry dest_icao).lat) / 2,
    lon := ((airportCoord registry origin_icao).lon + (airportCoord registry dest_icao).lon) / 2 }

/-- Result of get_route_weather: the returned value, the cache afterwards,
and how many collaborator (HTTP) calls were made. -/
structure WeatherResult where
  value : Option WeatherData
  cache : Cache
  calls : Nat
deriving Repr, DecidableEq

/-- Translation of FlightDataCollector.get_route_weather. `fetch lat lon dt`
is the OpenWeatherMap collaborator; `none` models a raised exception
(network error, timeout, malformed body failing `response.json()`), which the
source catches and turns into `None` without writing the cache. -/
def get_route_weather (fetch : ℚ → ℚ → Int → Option WeatherData)
    (registry : String → Option Coord) (cache : Cache)
    (origin destination : String) (flight_time : ℚ) : WeatherResult :=
  let key := cacheKey origin destination flight_time
  match cacheLookup cache key with
  | some w => ⟨some w, cache, 0⟩
  | none =>
    let mp := _get_midpoint registry origin destination
    match fetch mp.lat mp.lon (pyInt flight_time) with
    | some w => ⟨some w, cache ++ [(key, w)], 1⟩
    | none => ⟨none, cache, 1⟩

/-! The flight record normalizer (process_flight). -/

/-- Line 72 of the source: `datetime.fromtimestamp(details.get('filed_departuretime', 0))`. -/
def departureTime (details : FlightDetail) : Int :=
  details.filed_departuretime.getD 0

/-- Lines 74-78 of the source: the weather-query timestamp
`departure_time + (arrival_time - departure_time) / 2`. -/
def weatherQueryTime (details : FlightDetail) (arrival_time : Int) : ℚ :=
  (departureTime details : ℚ) + ((arrival_time : ℚ) - (departureTime details : ℚ)) / 2

/-- Result of process_flight: the record (or `None`) and the weather cache
afterwards (cache writes persist even when the flight is later dropped). -/
structure ProcessResult where
  record : Option EnrichedFlightRecord
  cache : Cache
deriving Repr, DecidableEq

/-- The dict literal of lines 80-96 of the source, evaluated in order:
`flight['estimatedarrivaltime']` raises when absent (dropping the flight),
and with a present-but-shapeless weather value the `['weather'][0]` access
raises (dropping the flight); with `route_weather` falsy every weather field
degrades to its sentinel. -/
def assembleRecord (flight : BoardEntry) (ident : String) (details : FlightDetail)
    (airport_icao : String) (arrival_time : Int)
    (route_weather : Option WeatherData) : Option EnrichedFlightRecord :=
  match flight.estimatedarrivaltime with
  | none => none
  | some est =>
    match route_weather with
    | none =>
      some { flight_number := ident
             airline := flight.operator.getD "Unknown"
             origin := details.origin
             destination := airport_icao
             scheduled_departure := departureTime details
             actual_departure := details.actualdeparturetime.getD 0
             scheduled_arrival := est
             actual_arrival := arrival_time
             delay_minutes := ((arrival_time : ℚ) - (est : ℚ)) / 60
             aircraft := flight.aircrafttype.getD "Unknown"
             route_weather := "Unknown"
             route_weather_desc := "Unknown"
             route_temp := none
             route_wind := none }
    | some w =>
      match w.current.weather[0]? with
      | none => none
      | some cond =>
        some { flight_number := ident
               airline := flight.operator.getD "Unknown"
               origin := details.origin
               destination := airport_icao
               scheduled_departure := departureTime details
               actual_departure := details.actualdeparturetime.getD 0
               scheduled_arrival := est
               actual_arrival := arrival_time
               delay_minutes := ((arrival_time : ℚ) - (est : ℚ)) / 60
               aircraft := flight.aircrafttype.getD "Unknown"
               route_weather := cond.main
               route_weather_desc := cond.description
               route_temp := some w.current.temp
               route_wind := some w.current.wind_speed }

/-- Translation of FlightDataCollector.process_flight. `getDetails` is
get_flight_details (its own try/except makes a failed call `none`; the
`if not details` guard also drops a falsy result, both folded into `none`).
Every `none` branch is the caught exception path returning `None`. -/
def process_flight (getDetails : String → Option FlightDetail)
    (fetch : ℚ → ℚ → Int → Option WeatherData)
    (registry : String → Option Coord) (cache : Cache)
    (flight : BoardEntry) (airport_icao : String) : ProcessResult :=
  match flight.ident with
  | none => ⟨none, cache⟩
  | some ident =>
    match getDetails ident with
    | none => ⟨none, cache⟩
    | some details =>
      match flight.actualarrivaltime with
      | none => ⟨none, cache⟩
      | some arrival_time =>
        let wr := get_route_weather fetch registry cache (details.origin.getD "None")
          airport_icao (weatherQueryTime details arrival_time)
        ⟨assembleRecord flight ident details airport_icao arrival_time wr.value, wr.cache⟩

/-! The collection orchestrator (collect_data). -/

/-- The per-airport inner loop of collect_data (lines 121-124): process each
board entry, appending only non-None results, threading the weather cache. -/
def processFlights (getDetails : String → Option FlightDetail)
    (fetch : ℚ → ℚ → Int → Option WeatherData)
    (registry : String → Option Coord) (cache : Cache)
    (flights : List BoardEntry) (airport_icao : String) :
    List EnrichedFlightRecord × Cache :=
  match flights with
  | [] => ([], cache)
  | f :: rest =>
    let pr := process_flight getDetails fetch registry cache f airport_icao
    let tail := processFlights getDetails fetch registry pr.cache rest airport_icao
    (match pr.record with
     | some rec => rec :: tail.1
     | none => tail.1, tail.2)

/-- Translation of FlightDataCollector.collect_data. `airports` is the
registry's iteration order; `getBoard` is the arrivals-board fetch, `none`
modelling any exception inside the per-airport try block (the inner loop
itself never raises since process_flight catches). A failed airport is
skipped and iteration continues; the returned list is what is persisted
as a single batch at the end (`df.to_excel`) and returned. -/
def collect_data (getBoard : String → Option (List BoardEntry))
    (getDetails : String → Option FlightDetail)
    (fetch : ℚ → ℚ → Int → Option WeatherData)
    (registry : String → Option Coord) (cache : Cache)
    (airports : List String) : List EnrichedFlightRecord × Cache :=
  match airports with
  | [] => ([], cache)
  | icao :: rest =>
    match getBoard icao with
    | none => collect_data getBoard getDetails fetch registry cache rest
    | some flights =>
      let here := processFlights getDetails fetch registry cache flights icao
      let tail := collect_data getBoard getDetails fetch registry here.2 rest
      (here.1 ++ tail.1, tail.2)

/-! The training side (train.py). Only the columns a claim touches are
modelled; the temporal breakdown (hour, day-of-week, month) and the
LabelEncoder integer codes never appear in a claim and are omitted from the
row type. -/

/-- One row after EnhancedDelayPredictor.preprocess_data: the engineered
numeric columns (lines 21-25 of train.py). -/
structure ProcessedRow where
  departure_delay : ℚ
  arrival_delay : ℚ
  is_delayed : Nat
deriving Repr, DecidableEq

/-- Lines 21-25 of train.py applied to one dataset row:
`departure_delay = (actual_departure - scheduled_departure)/60` minutes,
`arrival_delay = delay_minutes`, `is_delayed = int(arrival_delay > 15)`. -/
def preprocessRow (r : EnrichedFlightRecord) : ProcessedRow :=
  let departure_delay := ((r.actual_departure : ℚ) - (r.scheduled_departure : ℚ)) / 60
  let arrival_delay := r.delay_minutes
  { departure_delay := departure_delay
    arrival_delay := arrival_delay
    is_delayed := if arrival_delay > 15 then 1 else 0 }

/-- Translation of EnhancedDelayPredictor.preprocess_data over the dataset. -/
def preprocess_data (rows : List EnrichedFlightRecord) : List ProcessedRow :=
  rows.map preprocessRow

/-- Line 62 of train.py: `delayed = self.df[self.df['is_delayed'] == 1]`,
the corpus the regressor's train/test split is drawn from. -/
def delayedSubset (rows : List ProcessedRow) : List ProcessedRow :=
  rows.filter fun r => r.is_delayed == 1

/-! The two-stage predict operation. -/

/-- Output of the combined predict operation. -/
structure PredictOutput where
  is_delayed : Bool
  estimated_delay_minutes : Option ℚ
deriving Repr, DecidableEq

/-- A predict outcome together with the number of regressor invocations it
performed, so non-invocation is observable. -/
structure PredictTrace where
  output : PredictOutput
  regressorCalls : Nat
deriving Repr, DecidableEq

/-- Modelled from the spec: the repository sources contain no predict
implementation (train.py only trains and saves the two models), so the
combined predict operation of design §4.6 is taken at its word: run the
classifier; if it predicts not-delayed, return a null estimate without
invoking the regressor; otherwise invoke the regressor once and return its
estimate. `clf` and `reg` abstract the two fitted models. -/
def predict {α : Type} (clf : α → Bool) (reg : α → ℚ) (x : α) : PredictTrace :=
  if clf x then ⟨⟨true, some (reg x)⟩, 1⟩ else ⟨⟨false, none⟩, 0⟩

/-! Concrete sample data, used to exercise the definitions. -/

/-- A well-formed weather collaborator response. -/
def wSample : WeatherData := ⟨⟨[⟨"Clouds", "scattered clouds"⟩], 25, 3⟩⟩

/-- A weather response whose "weather" array is empty (shapeless payload). -/
def wEmpty : WeatherData := ⟨⟨[], 25, 3⟩⟩

/-- A board entry with every field present (spec scenario 1 timestamps). -/
def sampleFlight : BoardEntry := ⟨some "AI101", some "AIC", some 3600, some 3000, some "A320"⟩

/-- A flight detail with every field present. -/
def sampleDetail : FlightDetail := ⟨some "VABB", some 1000, some 1100⟩

/-- A flight detail lacking both departure epochs. -/
def sampleDetailNoDep : FlightDetail := ⟨some "VABB", none, none⟩

/-- A tracking collaborator that always returns sampleDetail. -/
def detailsOf : String → Option FlightDetail := fun _ => some sampleDetail

/-- A tracking collaborator that always returns sampleDetailNoDep. -/
def detailsOfNoDep : String → Option FlightDetail := fun _ => some sampleDetailNoDep

/-- A weather collaborator that always fails. -/
def noFetch : ℚ → ℚ → Int → Option WeatherData := fun _ _ _ => none

/-- A weather collaborator that always answers wSample. -/
def okFetch : ℚ → ℚ → Int → Option WeatherData := fun _ _ _ => some wSample

/-- A registry with no airports. -/
def emptyRegistry : String → Option Coord := fun _ => none

/-- A board fetch that always fails. -/
def noBoard : String → Option (List BoardEntry) := fun _ => none

/-- The record process_flight produces from sampleFlight/sampleDetail when
the weather lookup fails. -/
def sampleRec : EnrichedFlightRecord :=
  ⟨"AI101", "AIC", some "VABB", "VIDP", 1000, 1100, 3000, 3600, 10, "A320",
   "Unknown", "Unknown", none, none⟩

/-- sampleRec with a 20-minute arrival delay. -/
def sampleRecDelayed : EnrichedFlightRecord := { sampleRec with delay_minutes := 20 }

/-! Helper lemmas. -/

/-- Appending a fresh key to the cache makes it found. -/
theorem cacheLookup_append_self (cache : Cache) (key : String) (w : WeatherData)
    (h : cacheLookup cache key = none) :
    cacheLookup (cache ++ [(key, w)]) key = some w := by
  induction cache with
  | nil => simp [cacheLookup]
  | cons p rest ih =>
    simp only [cacheLookup, List.find?] at h ⊢
    cases hb : (p.1 == key) with
    | true => simp [hb] at h
    | false =>
      simp only [hb] at h ⊢
      exact ih h

/-- With a collaborator that always fails, get_route_weather never changes
the cache. -/
theorem grw_cache_fail (fetch : ℚ → ℚ → Int → Option WeatherData)
    (registry : String → Option Coord) (cache : Cache)
    (origin destination : String) (t : ℚ)
    (hfail : ∀ la lo dt, fetch la lo dt = none) :
    (get_route_weather fetch registry cache origin destination t).cache = cache := by
  unfold get_route_weather
  cases h : cacheLookup cache (cacheKey origin destination t) with
  | some w => simp [h]
  | none => simp [h, hfail]

/-- With a collaborator that always fails, process_flight never changes
the cache. -/
theorem process_flight_cache_fail (getDetails : String → Option FlightDetail)
    (fetch : ℚ → ℚ → Int → Option WeatherData)
    (registry : String → Option Coord) (cache : Cache)
    (flight : BoardEntry) (ap : String)
    (hfail : ∀ la lo dt, fetch la lo dt = none) :
    (process_flight getDetails fetch registry cache flight ap).cache = cache := by
  cases hi : flight.ident with
  | none => simp [process_flight, hi]
  | some i =>
    cases hd2 : getDetails i with
    | none => simp [process_flight, hi, hd2]
    | some d =>
      cases ha : flight.actualarrivaltime with
      | none => simp [process_flight, hi, hd2, ha]
      | some a =>
        simp [process_flight, hi, hd2, ha,
          grw_cache_fail fetch registry cache (d.origin.getD "None") ap
            (weatherQueryTime d a) hfail]

/-- Inversion for assembleRecord: the timestamp fields of any produced
record, whatever the weather value was. -/
theorem assembleRecord_some (flight : BoardEntry) (ident : String)
    (details : FlightDetail) (ap : String) (arrival_time : Int)
    (w : Option WeatherData) (rec : EnrichedFlightRecord)
    (h : assembleRecord flight ident details ap arrival_time w = some rec) :
    ∃ est, flight.estimatedarrivaltime = some est ∧
      rec.actual_arrival = arrival_time ∧ rec.scheduled_arrival = est ∧
      rec.delay_minutes = ((arrival_time : ℚ) - (est : ℚ)) / 60 ∧
      rec.scheduled_departure = departureTime details ∧
      rec.actual_departure = details.actualdeparturetime.getD 0 := by
  cases he : flight.estimatedarrivaltime with
  | none => simp [assembleRecord, he] at h
  | some est =>
    refine ⟨est, rfl, ?_⟩
    cases w with
    | none =>
      simp only [assembleRecord, he, Option.some.injEq] at h
      simp [← h]
    | some wd =>
      cases hw : wd.current.weather[0]? with
      | none => simp [assembleRecord, he, hw] at h
      | some cond =>
        simp only [assembleRecord, he, hw, Option.some.injEq] at h
        simp [← h]

/-- Inversion for process_flight: a produced record pins down the board and
detail fields it was assembled from. -/
theorem process_flight_some (getDetails : String → Option FlightDetail)
    (fetch : ℚ → ℚ → Int → Option WeatherData)
    (registry : String → Option Coord) (cache : Cache)
    (flight : BoardEntry) (ap : String) (rec : EnrichedFlightRecord)
    (h : (process_flight getDetails fetch registry cache flight ap).record = some rec) :
    ∃ i d a, flight.ident = some i ∧ getDetails i = some d ∧
      flight.actualarrivaltime = some a ∧
      ∃ est, flight.estimatedarrivaltime = some est ∧
        rec.actual_arrival = a ∧ rec.scheduled_arrival = est ∧
        rec.delay_minutes = ((a : ℚ) - (est : ℚ)) / 60 ∧
        rec.scheduled_departure = departureTime d ∧
        rec.actual_departure = d.actualdeparturetime.getD 0 := by
  cases hi : flight.ident with
  | none => simp [process_flight, hi] at h
  | some i =>
    cases hd2 : getDetails i with
    | none => simp [process_flight, hi, hd2] at h
    | some d =>
      cases ha : flight.actualarrivaltime with
      | none => simp [process_flight, hi, hd2, ha] at h
      | some a =>
        simp only [process_flight, hi, hd2, ha] at h
        exact ⟨i, d, a, rfl, hd2, rfl, assembleRecord_some _ _ _ _ _ _ _ h⟩

/-- Any record in the output of the per-airport loop was produced (non-None)
by process_flight on one of the board entries. -/
theorem processFlights_mem (getDetails : String → Option FlightDetail)
    (fetch : ℚ → ℚ → Int → Option WeatherData)
    (registry : String → Option Coord) (cache : Cache)
    (flights : List BoardEntry) (ap : String) (rec : EnrichedFlightRecord)
    (h : rec ∈ (processFlights getDetails fetch registry cache flights ap).1) :
    ∃ c f, f ∈ flights ∧
      (process_flight getDetails fetch registry c f ap).record = some rec := by
  induction flights generalizing cache with
  | nil => simp [processFlights] at h
  | cons f rest ih =>
    simp only [processFlights] at h
    cases hr : (process_flight getDetails fetch registry cache f ap).record with
    | none =>
      rw [hr] at h
      obtain ⟨c, g, hg, hgrec⟩ := ih _ h
      exact ⟨c, g, List.mem_cons_of_mem _ hg, hgrec⟩
    | some r =>
      rw [hr] at h
      rcases List.mem_cons.mp h with rfl | h2
      · exact ⟨cache, f, List.mem_cons_self _ _, hr⟩
      · obtain ⟨c, g, hg, hgrec⟩ := ih _ h2
        exact ⟨c, g, List.mem_cons_of_mem _ hg, hgrec⟩

/-- With an always-failing weather collaborator the per-airport loop is a
filterMap of process_flight over the board (the cache never changes, so the
flights are independent of one another). -/
theorem processFlights_fail_filterMap (getDetails : String → Option FlightDetail)
    (fetch : ℚ → ℚ → Int → Option WeatherData)
    (registry : String → Option Coord) (cache : Cache)
    (flights : List BoardEntry) (ap : String)
    (hfail : ∀ la lo dt, fetch la lo dt = none) :
    (processFlights getDetails fetch registry cache flights ap).1 =
      flights.filterMap
        (fun f => (process_flight getDetails fetch registry cache f ap).record) := by
  induction flights with
  | nil => simp [processFlights]
  | cons f rest ih =>
    have hc := process_flight_cache_fail getDetails fetch registry cache f ap hfail
    simp only [processFlights, hc, List.filterMap_cons]
    cases hr : (process_flight getDetails fetch registry cache f ap).record with
    | none => simp [ih]
    | some r => simp [ih]

/-- collect_data over a concatenation of airport lists: the earlier airports
are processed first, the later ones continue from the resulting cache. -/
theorem collect_data_append (getBoard : String → Option (List BoardEntry))
    (getDetails : String → Option FlightDetail)
    (fetch : ℚ → ℚ → Int → Option WeatherData)
    (registry : String → Option Coord) (cache : Cache) (xs ys : List String) :
    collect_data getBoard getDetails fetch registry cache (xs ++ ys) =
      ((collect_data getBoard getDetails fetch registry cache xs).1 ++
        (collect_data getBoard getDetails fetch registry
          (collect_data getBoard getDetails fetch registry cache xs).2 ys).1,
       (collect_data getBoard getDetails fetch registry
          (collect_data getBoard getDetails fetch registry cache xs).2 ys).2) := by
  induction xs generalizing cache with
  | nil => simp [collect_data]
  | cons a rest ih =>
    cases hb : getBoard a with
    | none => simp [collect_data, hb, ih]
    | some flights => simp [collect_data, hb, ih]

/-- Any record collect_data emits came from a successful process_flight on a
board entry of one of the visited airports. -/
theorem collect_data_mem (getBoard : String → Option (List BoardEntry))
    (getDetails : String → Option FlightDetail)
    (fetch : ℚ → ℚ → Int → Option WeatherData)
    (registry : String → Option Coord) (cache : Cache)
    (airports : List String) (rec : EnrichedFlightRecord)
    (h : rec ∈ (collect_data getBoard getDetails fetch registry cache airports).1) :
    ∃ icao ∈ airports, ∃ flights, getBoard icao = some flights ∧
      ∃ f ∈ flights, ∃ c,
        (process_flight getDetails fetch registry c f icao).record = some rec := by
  induction airports generalizing cache with
  | nil => simp [collect_data] at h
  | cons a rest ih =>
    cases hb : getBoard a with
    | none =>
      simp only [collect_data, hb] at h
      obtain ⟨icao, hicao, hrest⟩ := ih _ h
      exact ⟨icao, List.mem_cons_of_mem _ hicao, hrest⟩
    | some flights =>
      simp only [collect_data, hb, List.mem_append] at h
      rcases h with h | h
      · obtain ⟨c, f, hf, hrec⟩ := processFlights_mem _ _ _ _ _ _ _ h
        exact ⟨a, List.mem_cons_self _ _, flights, hb, f, hf, c, hrec⟩
      · obtain ⟨icao, hicao, hrest⟩ := ih _ h
        exact ⟨icao, List.mem_cons_of_mem _ hicao, hrest⟩

/-! Claim theorems. -/

/-- C1: every EnrichedFlightRecord produced by process_flight satisfies
delay_minutes = (actual_arrival - scheduled_arrival) / 60, the arrival delay
in minutes; and a board entry with actualarrivaltime 3600 and
estimatedarrivaltime 3000 yields delay_minutes = 10.0. -/
theorem delay_minutes_correct (getDetails : String → Option FlightDetail)
    (fetch : ℚ → ℚ → Int → Option WeatherData)
    (registry : String → Option Coord) (cache : Cache)
    (flight : BoardEntry) (ap : String) (rec : EnrichedFlightRecord)
    (h : (process_flight getDetails fetch registry cache flight ap).record = some rec) :
    rec.delay_minutes = ((rec.actual_arrival : ℚ) - (rec.scheduled_arrival : ℚ)) / 60 ∧
    (flight.actualarrivaltime = some 3600 → flight.estimatedarrivaltime = some 3000 →
      rec.delay_minutes = 10) := by
  obtain ⟨i, d, a, hi, hd2, ha, est, he, h1, h2, h3, -, -⟩ :=
    process_flight_some _ _ _ _ _ _ _ h
  constructor
  · rw [h1, h2, h3]
  · intro ha' he'
    rw [ha] at ha'
    rw [he] at he'
    obtain rfl : a = 3600 := Option.some.inj ha'
    obtain rfl : est = 3000 := Option.some.inj he'
    rw [h3]
    norm_num

/-- Witness for C1 at the concrete scenario-1 inputs. -/
theorem delay_minutes_correct_witness : sampleRec.delay_minutes = 10 :=
  (delay_minutes_correct detailsOf noFetch emptyRegistry [] sampleFlight "VIDP" sampleRec
    (by simp [process_flight, detailsOf, sampleFlight, sampleDetail, get_route_weather,
              cacheLookup, noFetch, assembleRecord, sampleRec, departureTime,
              weatherQueryTime]
        norm_num)).2 rfl rfl

/-- C2: the combined predict operation returns a null delay estimate and does
not invoke the regressor when the classifier predicts not-delayed, and
invokes the regressor exactly once and returns its estimate when the
classifier predicts delayed. -/
theorem predict_two_stage {α : Type} (clf : α → Bool) (reg : α → ℚ) (x : α) :
    (clf x = false → (predict clf reg x).output.is_delayed = false ∧
      (predict clf reg x).output.estimated_delay_minutes = none ∧
      (predict clf reg x).regressorCalls = 0) ∧
    (clf x = true → (predict clf reg x).output.is_delayed = true ∧
      (predict clf reg x).output.estimated_delay_minutes = some (reg x) ∧
      (predict clf reg x).regressorCalls = 1) := by
  constructor <;> intro h <;> simp [predict, h]

/-- Witness for C2 on a concrete classifier/regressor pair and inputs. -/
theorem predict_two_stage_witness :
    ((predict (fun n : Nat => decide (0 < n)) (fun _ : Nat => (7 : ℚ))
        0).output.estimated_delay_minutes = none ∧
      (predict (fun n : Nat => decide (0 < n)) (fun _ : Nat => (7 : ℚ))
        0).regressorCalls = 0) ∧
    ((predict (fun n : Nat => decide (0 < n)) (fun _ : Nat => (7 : ℚ))
        2).output.estimated_delay_minutes = some 7 ∧
      (predict (fun n : Nat => decide (0 < n)) (fun _ : Nat => (7 : ℚ))
        2).regressorCalls = 1) :=
  ⟨⟨((predict_two_stage (fun n : Nat => decide (0 < n)) (fun _ : Nat => (7 : ℚ)) 0).1
        (by decide)).2.1,
    ((predict_two_stage (fun n : Nat => decide (0 < n)) (fun _ : Nat => (7 : ℚ)) 0).1
        (by decide)).2.2⟩,
   ⟨((predict_two_stage (fun n : Nat => decide (0 < n)) (fun _ : Nat => (7 : ℚ)) 2).2
        (by decide)).2.1,
    ((predict_two_stage (fun n : Nat => decide (0 < n)) (fun _ : Nat => (7 : ℚ)) 2).2
        (by decide)).2.2⟩⟩

/-- C3: preprocess_data sets is_delayed to 1 exactly when the arrival delay
exceeds 15 minutes, and the regressor's training rows, drawn by any
subset-selecting split from the is_delayed = 1 subset, all have
arrival_delay > 15; a row with arrival_delay ≤ 15 never enters them. -/
theorem regressor_trained_only_on_delayed (rows : List EnrichedFlightRecord)
    (split : List ProcessedRow → List ProcessedRow)
    (hsplit : ∀ l r, r ∈ split l → r ∈ l) :
    (∀ r ∈ preprocess_data rows, (r.is_delayed = 1 ↔ r.arrival_delay > 15)) ∧
    (∀ r ∈ split (delayedSubset (preprocess_data rows)), r.arrival_delay > 15) ∧
    (∀ r : ProcessedRow, r.arrival_delay ≤ 15 →
      r ∉ split (delayedSubset (preprocess_data rows))) := by
  have key : ∀ r ∈ preprocess_data rows, (r.is_delayed = 1 ↔ r.arrival_delay > 15) := by
    intro r hr
    simp only [preprocess_data, List.mem_map] at hr
    obtain ⟨x, -, rfl⟩ := hr
    by_cases hx : x.delay_minutes > 15
    · simp [preprocessRow, hx]
    · simp [preprocessRow, hx]
  have key2 : ∀ r ∈ split (delayedSubset (preprocess_data rows)), r.arrival_delay > 15 := by
    intro r hr
    have hmem := hsplit _ _ hr
    simp only [delayedSubset, List.mem_filter] at hmem
    obtain ⟨hmem1, hdel⟩ := hmem
    exact (key r hmem1).mp (by simpa using hdel)
  refine ⟨key, key2, ?_⟩
  intro r hle hmem
  exact absurd (key2 r hmem) (not_lt.mpr hle)

/-- Witness for C3 on a one-row corpus with a 20-minute delay. -/
theorem regressor_trained_only_on_delayed_witness :
    (preprocessRow sampleRecDelayed).arrival_delay > 15 :=
  (regressor_trained_only_on_delayed [sampleRecDelayed] (fun l => l) (fun _ _ hm => hm)).2.1
    (preprocessRow sampleRecDelayed)
    (by simp [delayedSubset, preprocess_data, List.mem_filter, preprocessRow,
              sampleRecDelayed, sampleRec]
        norm_num)

/-- C4: two weather lookups with the same origin and destination and with
timestamps on the same calendar day share one cache key; when the first call
returned a value, the second returns exactly the cached value and makes zero
collaborator calls. -/
theorem weather_cache_same_day (fetch : ℚ → ℚ → Int → Option WeatherData)
    (registry : String → Option Coord) (cache : Cache)
    (origin destination : String) (t1 t2 : ℚ) (w : WeatherData) (c1 : Cache) (n1 : Nat)
    (hday : dateOf t1 = dateOf t2)
    (h1 : get_route_weather fetch registry cache origin destination t1 =
      ⟨some w, c1, n1⟩) :
    get_route_weather fetch registry c1 origin destination t2 = ⟨some w, c1, 0⟩ := by
  have hkey : cacheKey origin destination t2 = cacheKey origin destination t1 := by
    simp [cacheKey, hday]
  cases hc : cacheLookup cache (cacheKey origin destination t1) with
  | some v =>
    simp only [get_route_weather, hc] at h1
    injection h1 with e1 e2 e3
    obtain rfl := Option.some.inj e1
    subst e2
    simp [get_route_weather, hkey, hc]
  | none =>
    simp only [get_route_weather, hc] at h1
    cases hf : fetch (_get_midpoint registry origin destination).lat
        (_get_midpoint registry origin destination).lon (pyInt t1) with
    | none => simp [hf] at h1
    | some v =>
      simp only [hf] at h1
      injection h1 with e1 e2 e3
      obtain rfl := Option.some.inj e1
      subst e2
      have hl := cacheLookup_append_self cache (cacheKey origin destination t1) v hc
      simp [get_route_weather, hkey, hl]

/-- Witness for C4: a second same-day lookup hits the freshly stored entry. -/
theorem weather_cache_same_day_witness :
    get_route_weather okFetch emptyRegistry [("VABB-VIDP-0", wSample)] "VABB" "VIDP" 200 =
      ⟨some wSample, [("VABB-VIDP-0", wSample)], 0⟩ :=
  weather_cache_same_day okFetch emptyRegistry [] "VABB" "VIDP" 100 200 wSample
    [("VABB-VIDP-0", wSample)] 1
    (by norm_num [dateOf])
    (by simp [get_route_weather, okFetch, emptyRegistry, cacheLookup, cacheKey, dateOf]
        norm_num
        rfl)

/-- C5: when the weather collaborator fails, the lookup returns None, the
affected flight's record is still produced, with both weather strings
"Unknown" and absent temperature and wind, the cache is untouched, and the
batch is a plain filterMap of the board, so all other flights are
unaffected. -/
theorem weather_failure_degrades (getDetails : String → Option FlightDetail)
    (fetch : ℚ → ℚ → Int → Option WeatherData)
    (registry : String → Option Coord) (cache : Cache)
    (flight : BoardEntry) (ap i : String) (d : FlightDetail) (a e : Int)
    (flights : List BoardEntry)
    (hfail : ∀ la lo dt, fetch la lo dt = none)
    (hnc : ∀ k, cacheLookup cache k = none)
    (hi : flight.ident = some i) (hd : getDetails i = some d)
    (ha : flight.actualarrivaltime = some a)
    (he : flight.estimatedarrivaltime = some e) :
    (∀ o dst t, (get_route_weather fetch registry cache o dst t).value = none) ∧
    (∃ rec, process_flight getDetails fetch registry cache flight ap = ⟨some rec, cache⟩ ∧
      rec.route_weather = "Unknown" ∧ rec.route_weather_desc = "Unknown" ∧
      rec.route_temp = none ∧ rec.route_wind = none) ∧
    (processFlights getDetails fetch registry cache flights ap).1 =
      flights.filterMap
        (fun f => (process_flight getDetails fetch registry cache f ap).record) := by
  refine ⟨?_, ?_, processFlights_fail_filterMap _ _ _ _ _ _ hfail⟩
  · intro o dst t
    simp [get_route_weather, hnc, hfail]
  · exact ⟨{ flight_number := i
             airline := flight.operator.getD "Unknown"
             origin := d.origin
             destination := ap
             scheduled_departure := departureTime d
             actual_departure := d.actualdeparturetime.getD 0
             scheduled_arrival := e
             actual_arrival := a
             delay_minutes := ((a : ℚ) - (e : ℚ)) / 60
             aircraft := flight.aircrafttype.getD "Unknown"
             route_weather := "Unknown"
             route_weather_desc := "Unknown"
             route_temp := none
             route_wind := none },
      by simp [process_flight, hi, hd, ha, get_route_weather, hnc, hfail,
               assembleRecord, he],
      rfl, rfl, rfl, rfl⟩

/-- Witness for C5: a one-flight batch with a dead weather collaborator. -/
theorem weather_failure_degrades_witness :
    (processFlights detailsOf noFetch emptyRegistry [] [sampleFlight] "VIDP").1 =
      [sampleFlight].filterMap
        (fun f => (process_flight detailsOf noFetch emptyRegistry [] f "VIDP").record) :=
  (weather_failure_degrades detailsOf noFetch emptyRegistry [] sampleFlight "VIDP" "AI101"
    sampleDetail 3600 3000 [sampleFlight] (fun _ _ _ => rfl) (fun _ => rfl)
    rfl rfl rfl rfl).2.2

/-- C6: a flight whose detail lookup yields nothing is dropped (None, cache
untouched); an exception during record assembly, whether a missing required
board field or a shapeless weather payload, likewise yields None rather than
propagating; and a dropped flight leaves the processing of the remaining
board entries unchanged. -/
theorem flight_failures_are_dropped (getDetails : String → Option FlightDetail)
    (fetch : ℚ → ℚ → Int → Option WeatherData)
    (registry : String → Option Coord) (cache : Cache)
    (flight : BoardEntry) (ap i : String) (w : WeatherData) (rest : List BoardEntry) :
    (flight.ident = some i → getDetails i = none →
      process_flight getDetails fetch registry cache flight ap = ⟨none, cache⟩) ∧
    (flight.estimatedarrivaltime = none →
      (process_flight getDetails fetch registry cache flight ap).record = none) ∧
    ((∀ la lo dt, fetch la lo dt = some w) → w.current.weather = [] →
      (∀ k, cacheLookup cache k = none) →
      (process_flight getDetails fetch registry cache flight ap).record = none) ∧
    ((process_flight getDetails fetch registry cache flight ap).record = none →
      (processFlights getDetails fetch registry cache (flight :: rest) ap).1 =
        (processFlights getDetails fetch registry
          (process_flight getDetails fetch registry cache flight ap).cache rest ap).1) := by
  refine ⟨?_, ?_, ?_, ?_⟩
  · intro hi hd
    simp [process_flight, hi, hd]
  · intro he
    cases hi : flight.ident with
    | none => simp [process_flight, hi]
    | some i2 =>
      cases hd : getDetails i2 with
      | none => simp [process_flight, hi, hd]
      | some d =>
        cases ha : flight.actualarrivaltime with
        | none => simp [process_flight, hi, hd, ha]
        | some a => simp [process_flight, hi, hd, ha, assembleRecord, he]
  · intro hw hwe hnc
    cases hi : flight.ident with
    | none => simp [process_flight, hi]
    | some i2 =>
      cases hd : getDetails i2 with
      | none => simp [process_flight, hi, hd]
      | some d =>
        cases ha : flight.actualarrivaltime with
        | none => simp [process_flight, hi, hd, ha]
        | some a =>
          cases he : flight.estimatedarrivaltime with
          | none => simp [process_flight, hi, hd, ha, assembleRecord, he]
          | some e =>
            simp [process_flight, hi, hd, ha, get_route_weather, hnc, hw,
                  assembleRecord, he, hwe]
  · intro hnone
    simp [processFlights, hnone]

/-- Witness for C6: a flight with no detail is dropped without touching the
cache. -/
theorem flight_failures_are_dropped_witness :
    process_flight (fun _ => none) noFetch emptyRegistry [] sampleFlight "VIDP" =
      ⟨none, []⟩ :=
  (flight_failures_are_dropped (fun _ => none) noFetch emptyRegistry [] sampleFlight
    "VIDP" "AI101" wSample []).1 rfl rfl

/-- C7: the orchestrator skips an airport whose board fetch fails and still
processes the rest; airports are processed in registry iteration order, the
earlier ones first, the later ones continuing from the resulting cache; and
every record in the emitted (and persisted) sequence is a non-None result of
the normalizer on a board entry of a visited airport. -/
theorem collect_data_orchestration (getBoard : String → Option (List BoardEntry))
    (getDetails : String → Option FlightDetail)
    (fetch : ℚ → ℚ → Int → Option WeatherData)
    (registry : String → Option Coord) (cache : Cache)
    (a : String) (rest xs ys airports : List String) :
    (getBoard a = none →
      collect_data getBoard getDetails fetch registry cache (a :: rest) =
        collect_data getBoard getDetails fetch registry cache rest) ∧
    (collect_data getBoard getDetails fetch registry cache (xs ++ ys) =
      ((collect_data getBoard getDetails fetch registry cache xs).1 ++
        (collect_data getBoard getDetails fetch registry
          (collect_data getBoard getDetails fetch registry cache xs).2 ys).1,
       (collect_data getBoard getDetails fetch registry
          (collect_data getBoard getDetails fetch registry cache xs).2 ys).2)) ∧
    (∀ rec ∈ (collect_data getBoard getDetails fetch registry cache airports).1,
      ∃ icao ∈ airports, ∃ flights, getBoard icao = some flights ∧
        ∃ f ∈ flights, ∃ c,
          (process_flight getDetails fetch registry c f icao).record = some rec) := by
  refine ⟨?_, collect_data_append _ _ _ _ _ _ _, ?_⟩
  · intro hb
    simp [collect_data, hb]
  · intro rec hrec
    exact collect_data_mem _ _ _ _ _ _ _ hrec

/-- Witness for C7: a failing board fetch skips the airport. -/
theorem collect_data_orchestration_witness :
    collect_data noBoard detailsOf noFetch emptyRegistry [] ["VIDP"] =
      collect_data noBoard detailsOf noFetch emptyRegistry [] [] :=
  (collect_data_orchestration noBoard detailsOf noFetch emptyRegistry [] "VIDP"
    [] [] [] []).1 rfl

/-- C8: _get_midpoint is the arithmetic mean of the two airports' registry
coordinates (symmetric; the midpoint of an airport with itself is its own
coordinate); a code absent from the registry contributes coordinate (0, 0),
and with both codes unknown the midpoint is (0, 0). -/
theorem midpoint_mean_unknown_zero (registry : String → Option Coord) (o d : String)
    (ho : registry o = none) (hd2 : registry d = none) :
    (∀ x y, _get_midpoint registry x y =
      ⟨((airportCoord registry x).lat + (airportCoord registry y).lat) / 2,
       ((airportCoord registry x).lon + (airportCoord registry y).lon) / 2⟩) ∧
    (∀ x y, _get_midpoint registry x y = _get_midpoint registry y x) ∧
    (∀ x, _get_midpoint registry x x = airportCoord registry x) ∧
    airportCoord registry o = ⟨0, 0⟩ ∧
    _get_midpoint registry o d = ⟨0, 0⟩ := by
  refine ⟨fun x y => rfl, ?_, ?_, ?_, ?_⟩
  · intro x y
    simp only [_get_midpoint, Coord.mk.injEq]
    constructor <;> ring
  · intro x
    have hla : ((airportCoord registry x).lat + (airportCoord registry x).lat) / 2 =
        (airportCoord registry x).lat := by ring
    have hlo : ((airportCoord registry x).lon + (airportCoord registry x).lon) / 2 =
        (airportCoord registry x).lon := by ring
    simp [_get_midpoint, hla, hlo]
  · simp [airportCoord, ho]
  · simp [_get_midpoint, airportCoord, ho, hd2]

/-- Witness for C8: two unknown codes give midpoint (0, 0). -/
theorem midpoint_mean_unknown_zero_witness :
    _get_midpoint emptyRegistry "XXXX" "YYYY" = ⟨0, 0⟩ :=
  (midpoint_mean_unknown_zero emptyRegistry "XXXX" "YYYY" rfl rfl).2.2.2.2

/-- C9: a failed weather lookup is never stored: on a cache miss with a
failing collaborator the call returns None with the cache unchanged after
one collaborator call; repeating the call contacts the collaborator again;
and any call leaves the cache holding only inherited entries or values some
collaborator call returned. -/
theorem cache_stores_only_responses (fetch : ℚ → ℚ → Int → Option WeatherData)
    (registry : String → Option Coord) (cache : Cache)
    (origin destination : String) (t : ℚ)
    (hmiss : cacheLookup cache (cacheKey origin destination t) = none)
    (hfetch : fetch (_get_midpoint registry origin destination).lat
      (_get_midpoint registry origin destination).lon (pyInt t) = none) :
    get_route_weather fetch registry cache origin destination t = ⟨none, cache, 1⟩ ∧
    (get_route_weather fetch registry
      (get_route_weather fetch registry cache origin destination t).cache
      origin destination t).calls = 1 ∧
    (∀ (c : Cache) (o dst : String) (s : ℚ),
      ∀ kv ∈ (get_route_weather fetch registry c o dst s).cache,
        kv ∈ c ∨ ∃ la lo dt, fetch la lo dt = some kv.2) := by
  have h1 : get_route_weather fetch registry cache origin destination t =
      ⟨none, cache, 1⟩ := by
    simp [get_route_weather, hmiss, hfetch]
  refine ⟨h1, ?_, ?_⟩
  · rw [h1]
    simp [h1]
  · intro c o dst s kv hkv
    cases hc : cacheLookup c (cacheKey o dst s) with
    | some v =>
      simp only [get_route_weather, hc] at hkv
      exact Or.inl hkv
    | none =>
      cases hf : fetch (_get_midpoint registry o dst).lat
          (_get_midpoint registry o dst).lon (pyInt s) with
      | none =>
        simp only [get_route_weather, hc, hf] at hkv
        exact Or.inl hkv
      | some v =>
        simp only [get_route_weather, hc, hf] at hkv
        rcases List.mem_append.mp hkv with hmem | hmem
        · exact Or.inl hmem
        · simp only [List.mem_singleton] at hmem
          subst hmem
          exact Or.inr ⟨_, _, _, hf⟩

/-- Witness for C9: a failed lookup on an empty cache leaves it empty. -/
theorem cache_stores_only_responses_witness :
    get_route_weather noFetch emptyRegistry [] "VABB" "VIDP" 100 = ⟨none, [], 1⟩ :=
  (cache_stores_only_responses noFetch emptyRegistry [] "VABB" "VIDP" 100 rfl rfl).1

/-- C10: when the flight detail lacks the filed (or actual) departure epoch,
process_flight substitutes epoch 0 rather than dropping the flight: the
weather-query midpoint time degenerates to half the arrival epoch and the
record is still emitted, with scheduled (resp. actual) departure 0. -/
theorem missing_departure_defaults_zero (getDetails : String → Option FlightDetail)
    (fetch : ℚ → ℚ → Int → Option WeatherData)
    (registry : String → Option Coord) (cache : Cache)
    (flight : BoardEntry) (ap i : String) (d : FlightDetail) (a e : Int)
    (hfail : ∀ la lo dt, fetch la lo dt = none)
    (hnc : ∀ k, cacheLookup cache k = none)
    (hi : flight.ident = some i) (hd : getDetails i = some d)
    (ha : flight.actualarrivaltime = some a)
    (he : flight.estimatedarrivaltime = some e)
    (hfd : d.filed_departuretime = none) :
    weatherQueryTime d a = (a : ℚ) / 2 ∧
    ∃ rec, (process_flight getDetails fetch registry cache flight ap).record = some rec ∧
      rec.scheduled_departure = 0 ∧
      (d.actualdeparturetime = none → rec.actual_departure = 0) := by
  constructor
  · have hz : departureTime d = 0 := by simp [departureTime, hfd]
    rw [weatherQueryTime, hz]
    push_cast
    ring
  · refine ⟨{ flight_number := i
              airline := flight.operator.getD "Unknown"
              origin := d.origin
              destination := ap
              scheduled_departure := 0
              actual_departure := d.actualdeparturetime.getD 0
              scheduled_arrival := e
              actual_arrival := a
              delay_minutes := ((a : ℚ) - (e : ℚ)) / 60
              aircraft := flight.aircrafttype.getD "Unknown"
              route_weather := "Unknown"
              route_weather_desc := "Unknown"
              route_temp := none
              route_wind := none }, ?_, rfl, fun had => by simp [had]⟩
    simp [process_flight, hi, hd, ha, get_route_weather, hnc, hfail,
          assembleRecord, he, departureTime, hfd]

/-- Witness for C10: with no filed departure epoch, the weather-query time is
half the arrival epoch. -/
theorem missing_departure_defaults_zero_witness :
    weatherQueryTime sampleDetailNoDep 3600 = (3600 : ℚ) / 2 :=
  (missing_departure_defaults_zero detailsOfNoDep noFetch emptyRegistry [] sampleFlight
    "VIDP" "AI101" sampleDetailNoDep 3600 3000 (fun _ _ _ => rfl) (fun _ => rfl)
    rfl rfl rfl rfl rfl).1

end SkyCast
